import Mathlib

/-!
Verification development for the StarEngine DX12 frame queue and shader
asset builder (files SDX12FrameQueue.cpp and the shader asset builder
translation unit). Each C++ routine relevant to the checked properties is
shallowly embedded as an executable Lean definition; machine integers are
modelled as Nat with explicit reduction modulo two to the word size where
the C++ arithmetic can wrap.
-/

namespace StarEngine

/-- Modulus of uint64_t arithmetic (mNextFrameFence, fence values). -/
def UINT64MOD : Nat := 2 ^ 64

/-- Modulus of uint32_t arithmetic (mNextFrameIndex). -/
def UINT32MOD : Nat := 2 ^ 32

/-!
## Frame queue state (DX12FrameQueue, SDX12FrameQueue.cpp lines 77-120)

The queue state keeps the monotone fence counter, the next ring index and,
for each ring slot, the fence id stored in that slot's DX12FrameContext
(mFrameFenceId). The command list / allocator handles carried by a context
do not influence the control flow of beginFrame, so a slot is represented
by its stored fence id alone.
-/

structure FrameQueue where
  nextFrameFence : Nat
  nextFrameIndex : Nat
  frames : List Nat
deriving DecidableEq, Repr

/-- One beginFrame call (SDX12FrameQueue.cpp lines 77-120): read and
post-increment the fence counter (uint64), read and advance the ring index
modulo the ring size (uint32 arithmetic before the modulo, as in the
source), store the new fence id into the selected slot, and return the
selected slot index together with the fence value assigned to the
returned frame context. -/
def beginFrameStep (q : FrameQueue) : FrameQueue × Nat × Nat :=
  let frameFence := q.nextFrameFence
  let nextFence := (q.nextFrameFence + 1) % UINT64MOD
  let frameIndex := q.nextFrameIndex
  let nextIndex := ((q.nextFrameIndex + 1) % UINT32MOD) % q.frames.length
  ({ nextFrameFence := nextFence
     nextFrameIndex := nextIndex
     frames := q.frames.set frameIndex frameFence },
   frameIndex, frameFence)

/-- State of the frame queue after k beginFrame calls. -/
def iterateBeginFrame (q : FrameQueue) : Nat → FrameQueue
  | 0 => q
  | k + 1 => (beginFrameStep (iterateBeginFrame q k)).1

/-- Ring slot index and fence value produced by the k-th beginFrame call
(counting from 0). -/
def nthBeginFrame (q : FrameQueue) (k : Nat) : Nat × Nat :=
  (beginFrameStep (iterateBeginFrame q k)).2

/-!
## The observable event order inside one beginFrame call (lines 88-118)

beginFrame first blocks on the fence value stored in the selected slot
(DX12::waitForFence on pFrame->mFrameFenceId, line 90) and only then
overwrites the slot's fence id (line 91), rebinds the back buffer data
(lines 94-102), resets the slot's command allocator and command list
(lines 105-106), advances the circular allocators (lines 109-110) and
stores the render solution ids (lines 113-117).
-/

inductive FQEvent where
  | waitForFence (fence : Nat)
  | setSlotFence (slot : Nat) (fence : Nat)
  | setBackBuffer (slot : Nat)
  | resetCommandAllocator (slot : Nat)
  | resetCommandList (slot : Nat)
  | advanceDescriptors
  | advanceUploadBuffer
  | setRenderSolution (slot : Nat)
deriving DecidableEq, Repr

/-- The sequence of observable events of one beginFrame call, in source
order (SDX12FrameQueue.cpp lines 88-118). -/
def beginFrameTrace (q : FrameQueue) : List FQEvent :=
  [ FQEvent.waitForFence (q.frames.getD q.nextFrameIndex 0),
    FQEvent.setSlotFence q.nextFrameIndex q.nextFrameFence,
    FQEvent.setBackBuffer q.nextFrameIndex,
    FQEvent.resetCommandAllocator q.nextFrameIndex,
    FQEvent.resetCommandList q.nextFrameIndex,
    FQEvent.advanceDescriptors,
    FQEvent.advanceUploadBuffer,
    FQEvent.setRenderSolution q.nextFrameIndex ]

/-- Events that overwrite or reset the state owned by the given ring
slot (its stored fence id, its back buffer binding, its command allocator
or command list, its render solution binding). -/
def overwritesSlot (slot : Nat) : FQEvent → Bool
  | FQEvent.setSlotFence s _ => s == slot
  | FQEvent.setBackBuffer s => s == slot
  | FQEvent.resetCommandAllocator s => s == slot
  | FQEvent.resetCommandList s => s == slot
  | FQEvent.setRenderSolution s => s == slot
  | _ => false

/-!
## Helper lemmas for the beginFrame iteration
-/

theorem uint32_wrap_mod (R i : Nat) (hiR : i < R) (hR32 : R ≤ UINT32MOD) :
    ((i + 1) % UINT32MOD) % R = (i + 1) % R := by
  rcases Nat.lt_or_ge (i + 1) UINT32MOD with h | h
  · rw [Nat.mod_eq_of_lt h]
  · have hiM : i < UINT32MOD := Nat.lt_of_lt_of_le hiR hR32
    have h2 : i + 1 = UINT32MOD := Nat.le_antisymm (Nat.succ_le_of_lt hiM) h
    have hRi : R = i + 1 := Nat.le_antisymm (h2 ▸ hR32) (Nat.succ_le_of_lt hiR)
    have hRM : R = UINT32MOD := by rw [hRi, h2]
    rw [h2, hRM, Nat.mod_self, Nat.zero_mod]

theorem iterateBeginFrame_spec (q : FrameQueue)
    (hR : 0 < q.frames.length) (hR32 : q.frames.length ≤ UINT32MOD)
    (hf0 : q.nextFrameFence < UINT64MOD) (h0 : q.nextFrameIndex < q.frames.length) :
    ∀ k, (iterateBeginFrame q k).frames.length = q.frames.length ∧
      (iterateBeginFrame q k).nextFrameFence = (q.nextFrameFence + k) % UINT64MOD ∧
      (iterateBeginFrame q k).nextFrameIndex = (q.nextFrameIndex + k) % q.frames.length := by
  intro k
  induction k with
  | zero =>
    refine ⟨rfl, ?_, ?_⟩
    · simpa using (Nat.mod_eq_of_lt hf0).symm
    · simpa using (Nat.mod_eq_of_lt h0).symm
  | succ k ih =>
    obtain ⟨hlen, hfence, hidx⟩ := ih
    have hstep : iterateBeginFrame q (k + 1) = (beginFrameStep (iterateBeginFrame q k)).1 := rfl
    have hidxlt : (iterateBeginFrame q k).nextFrameIndex < q.frames.length := by
      rw [hidx]; exact Nat.mod_lt _ hR
    refine ⟨?_, ?_, ?_⟩
    · rw [hstep]
      simp [beginFrameStep, List.length_set, hlen]
    · rw [hstep]
      show ((iterateBeginFrame q k).nextFrameFence + 1) % UINT64MOD = _
      rw [hfence, Nat.mod_add_mod, Nat.add_assoc]
    · rw [hstep]
      show (((iterateBeginFrame q k).nextFrameIndex + 1) % UINT32MOD) %
          (iterateBeginFrame q k).frames.length = _
      rw [hlen, uint32_wrap_mod q.frames.length _ hidxlt hR32, hidx,
        Nat.mod_add_mod, Nat.add_assoc]

/-- C1: for every sequence of beginFrame calls on a FrameQueue whose ring
holds R slots (R positive, R at most 2^32, initial ring index 0, and the
fence counter not overflowing uint64 over the considered calls), the k-th
call (counting from 0) uses ring slot k mod R, and the fence value it
assigns to the returned frame context is the initial fence counter plus k,
hence exactly one greater than the fence value assigned by the previous
call. -/
theorem c1_beginFrame_slot_and_fence (q : FrameQueue) (k : Nat)
    (h0 : q.nextFrameIndex = 0)
    (hR : 0 < q.frames.length)
    (hR32 : q.frames.length ≤ UINT32MOD)
    (hf : q.nextFrameFence + k + 1 < UINT64MOD) :
    (nthBeginFrame q k).1 = k % q.frames.length ∧
    (nthBeginFrame q k).2 = q.nextFrameFence + k ∧
    (nthBeginFrame q (k + 1)).2 = (nthBeginFrame q k).2 + 1 := by
  have hf0 : q.nextFrameFence < UINT64MOD := by omega
  have hidx0 : q.nextFrameIndex < q.frames.length := by rw [h0]; exact hR
  have hspec := iterateBeginFrame_spec q hR hR32 hf0 hidx0
  obtain ⟨hlen, hfence, hidx⟩ := hspec k
  obtain ⟨hlen1, hfence1, hidx1⟩ := hspec (k + 1)
  have hs : (nthBeginFrame q k).1 = (iterateBeginFrame q k).nextFrameIndex := rfl
  have hfv : (nthBeginFrame q k).2 = (iterateBeginFrame q k).nextFrameFence := rfl
  have hfv1 : (nthBeginFrame q (k + 1)).2 = (iterateBeginFrame q (k + 1)).nextFrameFence := rfl
  refine ⟨?_, ?_, ?_⟩
  · rw [hs, hidx, h0, Nat.zero_add]
  · rw [hfv, hfence, Nat.mod_eq_of_lt (by omega)]
  · rw [hfv1, hfence1, hfv, hfence,
      Nat.mod_eq_of_lt (by omega), Nat.mod_eq_of_lt (by omega)]
    omega

/-- Witness for C1 at a concrete queue: ring size 3, initial fence 0,
fourth call (k = 3) uses slot 0 and fence 3; fifth call fence 4. -/
theorem c1_beginFrame_slot_and_fence_witness :
    (nthBeginFrame ⟨0, 0, [0, 0, 0]⟩ 3).1 = 3 % 3 ∧
    (nthBeginFrame ⟨0, 0, [0, 0, 0]⟩ 3).2 = 0 + 3 ∧
    (nthBeginFrame ⟨0, 0, [0, 0, 0]⟩ 4).2 = (nthBeginFrame ⟨0, 0, [0, 0, 0]⟩ 3).2 + 1 :=
  c1_beginFrame_slot_and_fence ⟨0, 0, [0, 0, 0]⟩ 3 rfl (by decide) (by decide) (by decide)

/-- C2: the very first observable event of beginFrame is the blocking OS
wait on the fence value stored in the selected ring slot (the slot's prior
mFrameFenceId), and every event that overwrites or resets that slot's
state (replacing its fence id, rebinding its back buffer, resetting its
command allocator or command list, rebinding its render solution) occurs
strictly after that wait in the call's event order. -/
theorem c2_beginFrame_wait_precedes_reuse (q : FrameQueue) :
    (beginFrameTrace q).head? =
      some (FQEvent.waitForFence (q.frames.getD q.nextFrameIndex 0)) ∧
    ∀ i e, (beginFrameTrace q).get? i = some e →
      overwritesSlot q.nextFrameIndex e = true → 1 ≤ i := by
  refine ⟨rfl, ?_⟩
  intro i e hget hov
  match i with
  | 0 =>
    simp only [beginFrameTrace, List.get?] at hget
    cases hget
    simp [overwritesSlot] at hov
  | Nat.succ n => exact Nat.succ_le_succ (Nat.zero_le n)

/-- Witness for C2 at a concrete queue: the trace of a queue whose slot 1
stores fence 20 starts with the wait on 20, and the fence-id overwrite of
slot 1 is found at position 1, after the wait. -/
theorem c2_beginFrame_wait_precedes_reuse_witness :
    (beginFrameTrace ⟨5, 1, [10, 20]⟩).head? = some (FQEvent.waitForFence 20) ∧ 1 ≤ 1 :=
  ⟨(c2_beginFrame_wait_precedes_reuse ⟨5, 1, [10, 20]⟩).1,
   (c2_beginFrame_wait_precedes_reuse ⟨5, 1, [10, 20]⟩).2 1
     (FQEvent.setSlotFence 1 5) rfl rfl⟩

/-!
## Shader binding data model (SDX12Types / render graph artifacts)

Enumerations mirror the tag types dispatched on with visit(overload(...))
in the source: resource states, constant data elements (Data::Proj_,
Data::View_, Data::WorldView_, Data::WorldInvT_ and the monostate case),
source kinds (EngineSource_, RenderTargetSource_, MaterialSource_),
descriptor attribute kinds, update frequencies, root parameter index
types and persistency.
-/

inductive ResourceState where
  | common
  | renderTarget
  | present
  | pixelShaderResource
  | depthWrite
  | genericRead
  | copyDest
deriving DecidableEq, Repr

inductive DataElement where
  | proj
  | view
  | worldView
  | worldInvT
  | monostate
deriving DecidableEq, Repr

inductive SourceKind where
  | engineSource
  | renderTargetSource
  | materialSource
deriving DecidableEq, Repr

inductive DescriptorKind where
  | constantBuffer
  | mainTex
  | pointSampler
  | linearSampler
  | monostate
deriving DecidableEq, Repr

inductive UpdateEnum where
  | perFrame
  | perPass
  | perBatch
  | perDraw
deriving DecidableEq, Repr

inductive IndexType where
  | constants
  | cbv
  | uav
  | srv
  | table
  | ssv
deriving DecidableEq, Repr

inductive Persistency where
  | persistent
  | dynamic
deriving DecidableEq, Repr

/-- One typed field of a constant buffer definition (cb.mConstants entry):
a source kind and a logical data element. -/
structure ConstantField where
  source : SourceKind
  dataType : DataElement
deriving DecidableEq, Repr

/-- A constant buffer definition declared by a shader subpass
(shaderSubpass.mConstantBuffers entry): the owning collection index it is
matched against, the declared byte size (mSize) and the ordered field
list (mConstants). The collection index is reduced to the identifier that
the equality test cb.mIndex != collection.mIndex compares. -/
structure ConstantBuffer where
  index : Nat
  size : Nat
  constants : List ConstantField
deriving DecidableEq, Repr

/-- The symbolic value written for one constant field. Matrix contents are
opaque external math (Matrix4f); what the binding code determines is which
logical matrix lands in the payload: the camera projection, the camera
view, or the per object worldView / worldInverseTranspose derived from the
object-batch entry selected by objectID. -/
inductive MatrixVal where
  | projOf
  | viewOf
  | worldViewOf (objectID : Nat)
  | worldInvTOf (objectID : Nat)
deriving DecidableEq, Repr

/-- sizeof(Matrix4f) in bytes: every constant field the engine writes is a
4x4 float matrix. -/
def matrixSize : Nat := 64

/-- One memcpy into the constant buffer payload: destination offset
(pData minus the payload base), symbolic value, byte count. -/
structure CBWrite where
  offset : Nat
  value : MatrixVal
  size : Nat
deriving DecidableEq, Repr

/-- boost::alignment::align_up for positive alignment a. -/
def alignUp (x a : Nat) : Nat := ((x + a - 1) / a) * a

/-- A flattened object batch (DX12FlattenedObjects): parallel arrays of
world transforms, inverse-transpose transforms and mesh renderers.
Transform entries are opaque and carried as ids. -/
structure SubMesh where
  indexCount : Nat
  indexOffset : Nat
deriving DecidableEq, Repr

structure Mesh where
  subMeshes : List SubMesh
  layoutID : Nat
  primitiveTopology : Nat
  hasIndexBuffer : Bool
deriving DecidableEq, Repr

/-- A material, reduced to the list of shader subpasses reached through
getSubpassData(...).mLevels.at(0).mPasses.at(0).mSubpasses; each entry
carries its pipeline state object id and yields one draw. -/
structure Material where
  shaderSubpasses : List Nat
deriving DecidableEq, Repr

structure MeshRenderer where
  mesh : Mesh
  materials : List Material
deriving DecidableEq, Repr

structure FlattenedObjects where
  worldTransforms : List Nat
  worldTransformInvs : List Nat
  meshRenderers : List MeshRenderer
deriving DecidableEq, Repr

/-!
## Constant-field resolution, per-draw/per-instance scope
(buildDynamicDescriptors, SDX12FrameQueue.cpp lines 166-208)

Writing one constant field of a dynamic per-instance constant buffer:
Proj and View throw, WorldView and WorldInvT require a non-null object
batch and write 64 bytes at the current pData after the bounds Expects,
monostate and the non-engine sources throw.
-/

def writePerInstanceConstant (pBatch : Option FlattenedObjects) (objectID : Nat)
    (sizeCB offset : Nat) (c : ConstantField) : Except String (CBWrite × Nat) :=
  match c.source with
  | SourceKind.engineSource =>
    match c.dataType with
    | DataElement.proj => Except.error "Proj cannot be per instance"
    | DataElement.view => Except.error "View cannot be per instance"
    | DataElement.worldView =>
      match pBatch with
      | none => Except.error "batch is nullptr"
      | some _ =>
        if offset + matrixSize ≤ sizeCB then
          Except.ok (⟨offset, MatrixVal.worldViewOf objectID, matrixSize⟩, offset + matrixSize)
        else Except.error "Expects payload bounds failed"
    | DataElement.worldInvT =>
      match pBatch with
      | none => Except.error "batch is nullptr"
      | some _ =>
        if offset + matrixSize ≤ sizeCB then
          Except.ok (⟨offset, MatrixVal.worldInvTOf objectID, matrixSize⟩, offset + matrixSize)
        else Except.error "Expects payload bounds failed"
    | DataElement.monostate => Except.error "engine source constant cannot be monostate"
  | SourceKind.renderTargetSource => Except.error "dynamic constant cannot be render target source"
  | SourceKind.materialSource => Except.error "dynamic constant cannot be material source"

/-- Write all fields of a per-instance constant buffer in declared order,
threading pData (the current offset). -/
def perInstanceWrites (pBatch : Option FlattenedObjects) (objectID sizeCB : Nat) :
    Nat → List ConstantField → Except String (List CBWrite)
  | _, [] => Except.ok []
  | offset, c :: rest =>
    match writePerInstanceConstant pBatch objectID sizeCB offset c with
    | Except.error e => Except.error e
    | Except.ok w =>
      match perInstanceWrites pBatch objectID sizeCB w.2 rest with
      | Except.error e => Except.error e
      | Except.ok ws => Except.ok (w.1 :: ws)

/-- Build the byte payload of one per-instance constant buffer
(lines 161-208): Expects(cb.mSize), resize the scratch vector to
align_up(cb.mSize, 256), then write each declared field in order. Returns
the writes together with the payload size. -/
def buildPerInstanceCBPayload (cb : ConstantBuffer) (pBatch : Option FlattenedObjects)
    (objectID : Nat) : Except String (List CBWrite × Nat) :=
  if cb.size = 0 then Except.error "Expects cb.mSize failed"
  else
    match perInstanceWrites pBatch objectID (alignUp cb.size 256) 0 cb.constants with
    | Except.error e => Except.error e
    | Except.ok ws => Except.ok (ws, alignUp cb.size 256)

/-- The constant buffer view produced for one ConstantBuffer descriptor
attribute: the D3D12_CONSTANT_BUFFER_VIEW_DESC SizeInBytes together with
the payload writes uploaded behind it. -/
structure CBVDesc where
  sizeCB : Nat
  writes : List CBWrite
deriving DecidableEq, Repr

/-- Resolution of an EngineSource ConstantBuffer attribute of a Dynamic
collection in the per-draw resolver (buildDynamicDescriptors lines
155-221): scan the owning subpass's declared constant buffers in order,
skip entries whose index differs from the collection index, build the
payload of the first match and break; throw only when no entry matched. -/
def resolvePerInstanceCBAttr (constantBuffers : List ConstantBuffer) (collectionIndex : Nat)
    (pBatch : Option FlattenedObjects) (objectID : Nat) : Except String CBVDesc :=
  match constantBuffers.find? (fun cb => cb.index == collectionIndex) with
  | none => Except.error "constant buffer not found"
  | some cb =>
    match buildPerInstanceCBPayload cb pBatch objectID with
    | Except.error e => Except.error e
    | Except.ok p => Except.ok ⟨p.2, p.1⟩

/-!
## Constant-field resolution, PerPass scope
(DX12FrameQueue::renderFrame, SDX12FrameQueue.cpp lines 414-470)

Writing one constant field of a dynamic per-pass constant buffer: Proj
and View write the camera matrices after the bounds Expects, WorldView
and WorldInvT throw, monostate and the non-engine sources throw.
-/

def writePerPassConstant (sizeCB offset : Nat) (c : ConstantField) :
    Except String (CBWrite × Nat) :=
  match c.source with
  | SourceKind.engineSource =>
    match c.dataType with
    | DataElement.proj =>
      if offset + matrixSize ≤ sizeCB then
        Except.ok (⟨offset, MatrixVal.projOf, matrixSize⟩, offset + matrixSize)
      else Except.error "Expects payload bounds failed"
    | DataElement.view =>
      if offset + matrixSize ≤ sizeCB then
        Except.ok (⟨offset, MatrixVal.viewOf, matrixSize⟩, offset + matrixSize)
      else Except.error "Expects payload bounds failed"
    | DataElement.worldView => Except.error "WorldView cannot be per pass"
    | DataElement.worldInvT => Except.error "WorldInvT cannot be per pass"
    | DataElement.monostate => Except.error "engine source constant cannot be monostate"
  | SourceKind.renderTargetSource => Except.error "dynamic constant cannot be render target source"
  | SourceKind.materialSource => Except.error "dynamic constant cannot be material source"

def perPassWrites (sizeCB : Nat) : Nat → List ConstantField → Except String (List CBWrite)
  | _, [] => Except.ok []
  | offset, c :: rest =>
    match writePerPassConstant sizeCB offset c with
    | Except.error e => Except.error e
    | Except.ok w =>
      match perPassWrites sizeCB w.2 rest with
      | Except.error e => Except.error e
      | Except.ok ws => Except.ok (w.1 :: ws)

/-- Build the byte payload of one per-pass constant buffer (renderFrame
lines 420-457): Expects(cb.mSize), resize to align_up(cb.mSize, 256),
write each declared field in order. -/
def buildPerPassCBPayload (cb : ConstantBuffer) : Except String (List CBWrite × Nat) :=
  if cb.size = 0 then Except.error "Expects cb.mSize failed"
  else
    match perPassWrites (alignUp cb.size 256) 0 cb.constants with
    | Except.error e => Except.error e
    | Except.ok ws => Except.ok (ws, alignUp cb.size 256)

/-- Resolution of an EngineSource ConstantBuffer attribute of a Dynamic
PerPass collection (renderFrame lines 414-470): first match among the
subpass's declared constant buffers wins, break after it, throw only
when no entry matched. -/
def resolvePerPassCBAttr (constantBuffers : List ConstantBuffer) (collectionIndex : Nat) :
    Except String CBVDesc :=
  match constantBuffers.find? (fun cb => cb.index == collectionIndex) with
  | none => Except.error "constant buffer not found"
  | some cb =>
    match buildPerPassCBPayload cb with
    | Except.error e => Except.error e
    | Except.ok p => Except.ok ⟨p.2, p.1⟩

/-!
## initPipeline (SDX12FrameQueue.cpp lines 50-75)

For each configured render target k the source reads the declared initial
state pipeline.mRTVInitialStates[k]; Common and RenderTarget are skipped,
every other state k yields one transition barrier built as
CD3DX12_RESOURCE_BARRIER::Transition(resource, RENDER_TARGET, state),
whose StateBefore is therefore RenderTarget and whose StateAfter is the
declared initial state.
-/

structure Barrier where
  resource : Nat
  stateBefore : ResourceState
  stateAfter : ResourceState
deriving DecidableEq, Repr

def initPipelineBarriers : List ResourceState → List Nat → List Barrier
  | [], _ => []
  | _, [] => []
  | state :: states, res :: sources =>
    if state = ResourceState.common ∨ state = ResourceState.renderTarget then
      initPipelineBarriers states sources
    else
      ⟨res, ResourceState.renderTarget, state⟩ :: initPipelineBarriers states sources

/-!
## Command stream model of DX12FrameQueue::renderFrame
(SDX12FrameQueue.cpp lines 266-662)

Commands recorded into the frame context's command list (and the device
side CreateConstantBufferView calls issued while resolving descriptors)
are modelled as a trace. Redundant-state-change elimination (the
prevTopology / pPrevPSO accumulators) is not modelled: topology and
pipeline-state commands are emitted unconditionally, which leaves every
other command of the trace, and in particular its order, unchanged.
-/

inductive Cmd where
  | resourceBarrierTransition (resource : Nat) (stateBefore stateAfter : ResourceState)
  | resourceBarriers (barriers : List Barrier)
  | setDescriptorHeaps
  | rsSetViewports
  | rsSetScissorRects
  | clearRenderTargetView (rtv : Nat)
  | clearDepthStencilView (dsv : Nat) (clearDepth clearStencil : Bool)
  | omSetRenderTargets (rtvs : List Nat) (dsv : Option Nat)
  | setGraphicsRootSignature
  | setGraphicsRootDescriptorTable (slot : Nat)
  | createConstantBufferView (sizeCB : Nat)
  | iaSetPrimitiveTopology (topology : Nat)
  | iaSetVertexBuffers
  | iaSetIndexBuffer (bound : Bool)
  | setPipelineState (pso : Nat)
  | drawInstanced (vertexCount instanceCount : Nat)
  | drawIndexedInstanced (indexCount instanceCount startIndex : Nat)
deriving DecidableEq, Repr

/-- Output-attachment render-target-view resolution (renderFrame lines
322-330): handle 0 aliases the RTV at the current back-buffer index, a
handle equal to the back-buffer count aliases the paired alternate view
at backBufferIndex + backBufferCount, every other handle names its own
RTV index. -/
def resolveOutputRTVHandle (handle backBufferIndex backBufferCount : Nat) : Nat :=
  if handle = 0 then backBufferIndex
  else if handle = backBufferCount then backBufferIndex + backBufferCount
  else handle

/-- Load operation of an attachment (rt.mLoadOp / ds.mLoadOp variant). -/
inductive LoadOp where
  | clearColor
  | clearDepthStencil (clearDepth clearStencil : Bool)
  | dontCare
deriving DecidableEq, Repr

structure OutputAttachment where
  handle : Nat
  loadOp : LoadOp
deriving DecidableEq, Repr

/-- A descriptor attribute inside a table subrange (attr.mDataType). -/
structure DescriptorAttr where
  dataType : DescriptorKind
deriving DecidableEq, Repr

structure DescriptorSubrange where
  source : SourceKind
  descriptors : List DescriptorAttr
deriving DecidableEq, Repr

structure DescriptorRange where
  subranges : List DescriptorSubrange
deriving DecidableEq, Repr

structure DescriptorList where
  slot : Nat
  capacity : Nat
  ranges : List DescriptorRange
deriving DecidableEq, Repr

/-- A binding collection of a subpass (subpass.mDescriptors entry),
reduced to the fields renderFrame reads: update frequency, root parameter
index type, persistency, the index identifier compared against constant
buffer definitions, and the resource view / sampler descriptor lists. -/
structure Collection where
  update : UpdateEnum
  typ : IndexType
  persistency : Persistency
  indexId : Nat
  resourceViewLists : List DescriptorList
  samplerLists : List DescriptorList
deriving DecidableEq, Repr

/-- A post-subpass resource state transition (subpass.mPostViewTransitions
entry). -/
structure Transition where
  framebuffer : Nat
  source : ResourceState
  target : ResourceState
deriving DecidableEq, Repr

inductive DrawCallType where
  | fullScreenTriangle
  | monostate
deriving DecidableEq, Repr

structure DrawCall where
  typ : DrawCallType
  material : Material
deriving DecidableEq, Repr

inductive RenderObjectKind where
  | drawCall
  | objectBatch
deriving DecidableEq, Repr

structure RenderObject where
  kind : RenderObjectKind
  index : Nat
deriving DecidableEq, Repr

structure RenderContent where
  ids : List RenderObject
  drawCalls : List DrawCall
  flattenedObjects : List FlattenedObjects
deriving DecidableEq, Repr

structure RenderQueue where
  contents : List RenderContent
deriving DecidableEq, Repr

structure GraphicsSubpass where
  outputAttachments : List OutputAttachment
  depthStencilAttachment : Option OutputAttachment
  descriptors : List Collection
  constantBuffers : List ConstantBuffer
  orderedRenderQueue : List RenderQueue
  postViewTransitions : List Transition
deriving DecidableEq, Repr

structure Pass where
  viewports : List Unit
  scissorRects : List Unit
  graphicsSubpasses : List GraphicsSubpass
deriving DecidableEq, Repr

/-- The frame context fields read by renderFrame: the back-buffer index
and count captured at beginFrame, the framebuffer resource table of the
render graph, and the selected pipeline's passes. -/
structure FrameContext where
  backBufferIndex : Nat
  backBufferCount : Nat
  framebuffers : List Nat
  passes : List Pass
deriving DecidableEq, Repr

/-- Sequence a list of fallible command emissions, concatenating the
emitted commands; the first throw aborts the frame. -/
def collectCmds (f : α → Except String (List Cmd)) : List α → Except String (List Cmd)
  | [] => Except.ok []
  | a :: rest =>
    match f a with
    | Except.error e => Except.error e
    | Except.ok cs =>
      match collectCmds f rest with
      | Except.error e => Except.error e
      | Except.ok cs2 => Except.ok (cs ++ cs2)

/-- D3D_PRIMITIVE_TOPOLOGY_TRIANGLELIST. -/
def triangleListTopology : Nat := 4

/-- The per-material loop of an object batch draw (renderFrame lines
570-628): for each material of the renderer, in index order, first test
materialID against the mesh's submesh count and break as soon as it is
not smaller; otherwise bind topology, vertex buffers and index buffer for
the mesh and emit one indexed draw per shader subpass of the material,
drawing the submesh paired with the material by index. -/
def materialLoopCmds (mesh : Mesh) : List Material → Nat → List Cmd
  | [], _ => []
  | material :: rest, materialID =>
    if mesh.subMeshes.length ≤ materialID then []
    else
      let submesh := mesh.subMeshes.getD materialID ⟨0, 0⟩
      (Cmd.iaSetPrimitiveTopology mesh.primitiveTopology
        :: Cmd.iaSetVertexBuffers
        :: Cmd.iaSetIndexBuffer mesh.hasIndexBuffer
        :: material.shaderSubpasses.flatMap (fun pso =>
            [Cmd.setPipelineState pso,
             Cmd.drawIndexedInstanced submesh.indexCount 1 submesh.indexOffset]))
      ++ materialLoopCmds mesh rest (materialID + 1)

/-- True exactly on indexed draw commands. -/
def isIndexedDraw : Cmd → Bool
  | Cmd.drawIndexedInstanced _ _ _ => true
  | _ => false

/-- An object batch item (renderFrame lines 562-630): Expects the
transform arrays to parallel the renderer array, then run the material
loop of every renderer. -/
def objectBatchCmds (batch : FlattenedObjects) : Except String (List Cmd) :=
  if batch.worldTransforms.length ≠ batch.meshRenderers.length then
    Except.error "Expects worldTransforms length failed"
  else if batch.worldTransformInvs.length ≠ batch.meshRenderers.length then
    Except.error "Expects worldTransformInvs length failed"
  else
    Except.ok ((batch.meshRenderers.map
      (fun r => materialLoopCmds r.mesh r.materials 0)).flatten)

/-- A draw call item (renderFrame lines 509-560): a full screen triangle
binds the triangle list topology, clears the vertex and index buffer
bindings, and emits one non-indexed 3-vertex draw per shader subpass of
its material; the monostate draw call type throws. -/
def drawCallCmds (dc : DrawCall) : Except String (List Cmd) :=
  match dc.typ with
  | DrawCallType.fullScreenTriangle =>
    Except.ok (Cmd.iaSetPrimitiveTopology triangleListTopology
      :: Cmd.iaSetVertexBuffers
      :: Cmd.iaSetIndexBuffer false
      :: dc.material.shaderSubpasses.flatMap (fun pso =>
          [Cmd.setPipelineState pso, Cmd.drawInstanced 3 1]))
  | DrawCallType.monostate => Except.error "mesh drawcall not supported"

/-- One entry of a render content id list: dispatch on the object kind and
look the item up with bounds-checked at(). -/
def renderObjectCmds (content : RenderContent) (o : RenderObject) : Except String (List Cmd) :=
  match o.kind with
  | RenderObjectKind.drawCall =>
    match content.drawCalls.get? o.index with
    | none => Except.error "drawCalls out of range"
    | some dc => drawCallCmds dc
  | RenderObjectKind.objectBatch =>
    match content.flattenedObjects.get? o.index with
    | none => Except.error "flattenedObjects out of range"
    | some b => objectBatchCmds b

/-- One subrange of a dynamic PerPass descriptor list (renderFrame lines
409-491): EngineSource resolves each ConstantBuffer attribute against the
subpass's constant buffers and creates one constant buffer view, every
other attribute kind throws; RenderTargetSource and MaterialSource
subranges throw. -/
def perPassSubrangeCmds (constantBuffers : List ConstantBuffer) (indexId : Nat)
    (sr : DescriptorSubrange) : Except String (List Cmd) :=
  match sr.source with
  | SourceKind.engineSource =>
    collectCmds (fun (attr : DescriptorAttr) =>
      match attr.dataType with
      | DescriptorKind.constantBuffer =>
        match resolvePerPassCBAttr constantBuffers indexId with
        | Except.error e => Except.error e
        | Except.ok d => Except.ok [Cmd.createConstantBufferView d.sizeCB]
      | _ => Except.error "not supported yet") sr.descriptors
  | SourceKind.renderTargetSource =>
    Except.error "dynamic descriptor cannot be render target source"
  | SourceKind.materialSource => Except.error "not supported yet"

/-- One dynamic resource view list of a PerPass collection (renderFrame
lines 403-495): Expects a table index and a nonzero capacity, allocate a
circular range, fill it subrange by subrange, then bind the table at its
root parameter slot. -/
def perPassDynamicListCmds (constantBuffers : List ConstantBuffer) (c : Collection)
    (l : DescriptorList) : Except String (List Cmd) :=
  if c.typ ≠ IndexType.table then Except.error "Expects Table index failed"
  else if l.capacity = 0 then Except.error "Expects capacity failed"
  else
    match collectCmds (fun (r : DescriptorRange) =>
        collectCmds (perPassSubrangeCmds constantBuffers c.indexId) r.subranges) l.ranges with
    | Except.error e => Except.error e
    | Except.ok cs => Except.ok (cs ++ [Cmd.setGraphicsRootDescriptorTable l.slot])

/-- One persistent resource view list of a PerPass collection (renderFrame
lines 395-400): Expects a table index and a nonzero capacity, then bind
the pre-baked table offset. -/
def perPassPersistentListCmds (c : Collection) (l : DescriptorList) :
    Except String (List Cmd) :=
  if c.typ ≠ IndexType.table then Except.error "Expects Table index failed"
  else if l.capacity = 0 then Except.error "Expects capacity failed"
  else Except.ok [Cmd.setGraphicsRootDescriptorTable l.slot]

/-- One collection of the PerPass binding pass (renderFrame lines
387-503): collections with another update frequency or an SSV index are
skipped, otherwise the resource view lists are bound according to the
persistency and any sampler list throws. -/
def perPassCollectionCmds (constantBuffers : List ConstantBuffer) (c : Collection) :
    Except String (List Cmd) :=
  if c.update ≠ UpdateEnum.perPass then Except.ok []
  else if c.typ = IndexType.ssv then Except.ok []
  else
    match (match c.persistency with
      | Persistency.persistent => collectCmds (perPassPersistentListCmds c) c.resourceViewLists
      | Persistency.dynamic =>
        collectCmds (perPassDynamicListCmds constantBuffers c) c.resourceViewLists) with
    | Except.error e => Except.error e
    | Except.ok cs =>
      if c.samplerLists.isEmpty then Except.ok cs
      else Except.error "not supported yet"

/-- One ordered render queue of a subpass (renderFrame lines 383-634):
bind the root signature, bind the PerPass collections, then process every
content id. -/
def renderQueueCmds (sp : GraphicsSubpass) (q : RenderQueue) : Except String (List Cmd) :=
  match collectCmds (perPassCollectionCmds sp.constantBuffers) sp.descriptors with
  | Except.error e => Except.error e
  | Except.ok descCmds =>
    match collectCmds (fun (content : RenderContent) =>
        collectCmds (renderObjectCmds content) content.ids) q.contents with
    | Except.error e => Except.error e
    | Except.ok drawCmds =>
      Except.ok (Cmd.setGraphicsRootSignature :: descCmds ++ drawCmds)

/-- One output attachment (renderFrame lines 322-343): resolve the RTV,
apply a Clear color load op, throw on a depth-stencil clear of a color
target. Returns the resolved RTV handle and the emitted commands. -/
def outputAttachmentCmds (backBufferIndex backBufferCount : Nat) (rt : OutputAttachment) :
    Except String (Nat × List Cmd) :=
  let rtv := resolveOutputRTVHandle rt.handle backBufferIndex backBufferCount
  match rt.loadOp with
  | LoadOp.clearColor => Except.ok (rtv, [Cmd.clearRenderTargetView rtv])
  | LoadOp.clearDepthStencil _ _ => Except.error "RTV should not use clear depth stencil"
  | LoadOp.dontCare => Except.ok (rtv, [])

def outputAttachmentsCmds (backBufferIndex backBufferCount : Nat) :
    List OutputAttachment → Except String (List Nat × List Cmd)
  | [] => Except.ok ([], [])
  | rt :: rest =>
    match outputAttachmentCmds backBufferIndex backBufferCount rt with
    | Except.error e => Except.error e
    | Except.ok rc =>
      match outputAttachmentsCmds backBufferIndex backBufferCount rest with
      | Except.error e => Except.error e
      | Except.ok p => Except.ok (rc.1 :: p.1, rc.2 ++ p.2)

/-- The depth stencil attachment (renderFrame lines 344-363): its DSV is
its own handle, a Clear color load op throws, a depth-stencil clear emits
the clear with its flags. -/
def depthStencilCmds (ds : OutputAttachment) : Except String (Nat × List Cmd) :=
  match ds.loadOp with
  | LoadOp.clearColor => Except.error "DSV should not use clear color"
  | LoadOp.clearDepthStencil d s =>
    Except.ok (ds.handle, [Cmd.clearDepthStencilView ds.handle d s])
  | LoadOp.dontCare => Except.ok (ds.handle, [])

/-- Post-subpass transition barriers (renderFrame lines 639-655): handle 0
aliases the current back buffer's framebuffer, other handles index the
framebuffer table directly. -/
def postTransitionBarriers (framebuffers : List Nat) (backBufferIndex : Nat)
    (ts : List Transition) : List Barrier :=
  ts.map (fun t =>
    let r := if t.framebuffer = 0 then framebuffers.getD backBufferIndex 0
             else framebuffers.getD t.framebuffer 0
    ⟨r, t.source, t.target⟩)

/-- One graphics subpass (renderFrame lines 317-656): clear and bind the
render targets, run every ordered render queue, then apply the
post-subpass transitions as one batched barrier call. -/
def subpassCmds (framebuffers : List Nat) (backBufferIndex backBufferCount : Nat)
    (sp : GraphicsSubpass) : Except String (List Cmd) :=
  match outputAttachmentsCmds backBufferIndex backBufferCount sp.outputAttachments with
  | Except.error e => Except.error e
  | Except.ok rp =>
    match (match sp.depthStencilAttachment with
      | none => Except.ok (none, [])
      | some ds =>
        match depthStencilCmds ds with
        | Except.error e => Except.error e
        | Except.ok dc => Except.ok (some dc.1, dc.2)) with
    | Except.error e => Except.error e
    | Except.ok dp =>
      let omCmds :=
        if rp.1.isEmpty ∧ sp.depthStencilAttachment.isNone then []
        else [Cmd.omSetRenderTargets rp.1 dp.1]
      match collectCmds (renderQueueCmds sp) sp.orderedRenderQueue with
      | Except.error e => Except.error e
      | Except.ok queueCmds =>
        let postCmds :=
          if sp.postViewTransitions.isEmpty then []
          else [Cmd.resourceBarriers
            (postTransitionBarriers framebuffers backBufferIndex sp.postViewTransitions)]
        Except.ok (rp.2 ++ dp.2 ++ omCmds ++ queueCmds ++ postCmds)

/-- One pass (renderFrame lines 302-656): bind the single viewport and
scissor rect when present (more than one of either fails the Expects),
then run every graphics subpass. -/
def passCmds (framebuffers : List Nat) (backBufferIndex backBufferCount : Nat)
    (p : Pass) : Except String (List Cmd) :=
  match (if p.viewports.isEmpty then Except.ok []
    else if p.viewports.length = 1 then Except.ok [Cmd.rsSetViewports]
    else Except.error "Expects one viewport failed") with
  | Except.error e => Except.error e
  | Except.ok vpCmds =>
    match (if p.scissorRects.isEmpty then Except.ok []
      else if p.scissorRects.length = 1 then Except.ok [Cmd.rsSetScissorRects]
      else Except.error "Expects one scissor rect failed") with
    | Except.error e => Except.error e
    | Except.ok scCmds =>
      match collectCmds (subpassCmds framebuffers backBufferIndex backBufferCount)
          p.graphicsSubpasses with
      | Except.error e => Except.error e
      | Except.ok spCmds => Except.ok (vpCmds ++ scCmds ++ spCmds)

/-- The commands renderFrame records, in order (lines 266-662): first the
Present to RenderTarget transition of the framebuffer at the context's
back-buffer index (lines 269-276), then the descriptor heap binding
(line 300), then the pass traversal. A throw during the traversal loses
the tail of the trace only; nothing precedes the initial barrier. -/
def renderFrameCmds (ctx : FrameContext) : List Cmd :=
  Cmd.resourceBarrierTransition (ctx.framebuffers.getD ctx.backBufferIndex 0)
      ResourceState.present ResourceState.renderTarget
    :: Cmd.setDescriptorHeaps
    :: (match collectCmds (passCmds ctx.framebuffers ctx.backBufferIndex ctx.backBufferCount)
          ctx.passes with
        | Except.error _ => []
        | Except.ok cs => cs)

/-!
## Shader program store step (buildShaderData, shader asset builder
translation unit lines 259-316)

For a pixel or vertex shader stage the generated HLSL text is either
compiled immediately (bCompile true) or, after the Expects that the
destination program buffer is still empty, appended to the buffer for
later batch compilation (bCompile false).
-/

inductive StageStoreResult where
  | compiled (text : List Char)
  | stored (buffer : List Char)
deriving DecidableEq, Repr

def storePixelShader (bCompile : Bool) (mPS text : List Char) :
    Except String StageStoreResult :=
  if bCompile then Except.ok (StageStoreResult.compiled text)
  else if mPS = [] then Except.ok (StageStoreResult.stored (mPS ++ text))
  else Except.error "Expects mPS empty failed"

def storeVertexShader (bCompile : Bool) (mVS text : List Char) :
    Except String StageStoreResult :=
  if bCompile then Except.ok (StageStoreResult.compiled text)
  else if mVS = [] then Except.ok (StageStoreResult.stored (mVS ++ text))
  else Except.error "Expects mVS empty failed"

/-- C3 counterexample: with two declared constant buffers that both carry
the collection's index, the per-draw resolver of a Dynamic EngineSource
ConstantBuffer attribute succeeds with the first match instead of failing
fatally: the ambiguous-match half of the claim is false on the code. -/
theorem c3_counterexample_first_match_wins :
    resolvePerInstanceCBAttr
        [⟨7, 64, [⟨SourceKind.engineSource, DataElement.worldView⟩]⟩, ⟨7, 128, []⟩]
        7 (some ⟨[0], [0], []⟩) 0 =
      Except.ok ⟨256, [⟨0, MatrixVal.worldViewOf 0, 64⟩]⟩ ∧
    ∀ e, resolvePerInstanceCBAttr
        [⟨7, 64, [⟨SourceKind.engineSource, DataElement.worldView⟩]⟩, ⟨7, 128, []⟩]
        7 (some ⟨[0], [0], []⟩) 0 ≠ Except.error e := by
  refine ⟨rfl, ?_⟩
  intro e h
  rw [show resolvePerInstanceCBAttr
      [⟨7, 64, [⟨SourceKind.engineSource, DataElement.worldView⟩]⟩, ⟨7, 128, []⟩]
      7 (some ⟨[0], [0], []⟩) 0 =
    Except.ok ⟨256, [⟨0, MatrixVal.worldViewOf 0, 64⟩]⟩ from rfl] at h
  exact Except.noConfusion h

/-- C3 (amended): resolving a Dynamic EngineSource ConstantBuffer
attribute scans the owning subpass's declared constant buffers in
declaration order for entries whose index equals the collection's index;
zero matches fail fatally with the constant-buffer-not-found error, and
with one or more matches the resolver uses the first matching definition
and ignores the rest. -/
theorem c3_constant_buffer_lookup (cbs : List ConstantBuffer) (idx : Nat)
    (pBatch : Option FlattenedObjects) (objectID : Nat) :
    (cbs.find? (fun cb => cb.index == idx) = none →
      resolvePerInstanceCBAttr cbs idx pBatch objectID =
        Except.error "constant buffer not found") ∧
    (∀ cb, cbs.find? (fun cb => cb.index == idx) = some cb →
      resolvePerInstanceCBAttr cbs idx pBatch objectID =
        match buildPerInstanceCBPayload cb pBatch objectID with
        | Except.error e => Except.error e
        | Except.ok p => Except.ok ⟨p.2, p.1⟩) := by
  constructor
  · intro h
    simp only [resolvePerInstanceCBAttr, h]
  · intro cb h
    simp only [resolvePerInstanceCBAttr, h]

/-- Witness for C3 (amended): an empty declaration list fails with the
not-found error; a single matching declaration determines the result. -/
theorem c3_constant_buffer_lookup_witness :
    resolvePerInstanceCBAttr [] 0 none 0 = Except.error "constant buffer not found" ∧
    resolvePerInstanceCBAttr [⟨5, 64, []⟩] 5 none 0 = Except.ok ⟨256, []⟩ :=
  ⟨(c3_constant_buffer_lookup [] 0 none 0).1 rfl,
   (c3_constant_buffer_lookup [⟨5, 64, []⟩] 5 none 0).2 ⟨5, 64, []⟩ rfl⟩

/-- C4 counterexample: a render target declared with initial state
PixelShaderResource receives a barrier whose StateBefore is RenderTarget
and whose StateAfter is PixelShaderResource, not the claimed transition
from the declared initial state to RenderTarget. -/
theorem c4_counterexample_direction_reversed :
    initPipelineBarriers [ResourceState.pixelShaderResource] [5] =
      [⟨5, ResourceState.renderTarget, ResourceState.pixelShaderResource⟩] ∧
    initPipelineBarriers [ResourceState.pixelShaderResource] [5] ≠
      [⟨5, ResourceState.pixelShaderResource, ResourceState.renderTarget⟩] :=
  ⟨rfl, by decide⟩

/-- C4 (amended): initPipeline issues a transition barrier for exactly
those configured render-target resources whose declared initial state
differs from both Common and RenderTarget, and each barrier transitions
the resource from the RenderTarget state to its declared initial state;
resources declared Common or RenderTarget get no barrier. -/
theorem c4_initPipeline_barriers (states : List ResourceState) (sources : List Nat) :
    initPipelineBarriers states sources =
      ((states.zip sources).filter (fun p =>
          !(p.1 == ResourceState.common || p.1 == ResourceState.renderTarget))).map
        (fun p => ⟨p.2, ResourceState.renderTarget, p.1⟩) := by
  induction states generalizing sources with
  | nil => simp [initPipelineBarriers]
  | cons s states ih =>
    cases sources with
    | nil => simp [initPipelineBarriers]
    | cons r sources =>
      cases s <;> simp [initPipelineBarriers, ih, List.filter_cons]

/-- C5: constant-field scope legality is fatal in both directions:
Projection and View fields throw in the per-draw/per-instance resolver,
WorldView and WorldInverseTranspose fields throw in the PerPass resolver,
and WorldView / WorldInverseTranspose fields throw in the per-instance
resolver whenever the object-batch context is null. No combination is
silently skipped. -/
theorem c5_constant_scope_errors (pBatch : Option FlattenedObjects)
    (objectID sizeCB offset : Nat) :
    writePerInstanceConstant pBatch objectID sizeCB offset
        ⟨SourceKind.engineSource, DataElement.proj⟩ =
      Except.error "Proj cannot be per instance" ∧
    writePerInstanceConstant pBatch objectID sizeCB offset
        ⟨SourceKind.engineSource, DataElement.view⟩ =
      Except.error "View cannot be per instance" ∧
    writePerPassConstant sizeCB offset ⟨SourceKind.engineSource, DataElement.worldView⟩ =
      Except.error "WorldView cannot be per pass" ∧
    writePerPassConstant sizeCB offset ⟨SourceKind.engineSource, DataElement.worldInvT⟩ =
      Except.error "WorldInvT cannot be per pass" ∧
    writePerInstanceConstant none objectID sizeCB offset
        ⟨SourceKind.engineSource, DataElement.worldView⟩ =
      Except.error "batch is nullptr" ∧
    writePerInstanceConstant none objectID sizeCB offset
        ⟨SourceKind.engineSource, DataElement.worldInvT⟩ =
      Except.error "batch is nullptr" :=
  ⟨rfl, rfl, rfl, rfl, rfl, rfl⟩

theorem writePerPassConstant_ok (sizeCB offset : Nat) (c : ConstantField)
    (w : CBWrite) (offset2 : Nat)
    (h : writePerPassConstant sizeCB offset c = Except.ok (w, offset2)) :
    w.offset = offset ∧ w.size = matrixSize ∧ offset2 = offset + matrixSize := by
  obtain ⟨src, dt⟩ := c
  cases src <;> cases dt <;> simp only [writePerPassConstant] at h
  all_goals try exact Except.noConfusion h
  all_goals
    split at h
    · simp only [Except.ok.injEq, Prod.mk.injEq] at h
      obtain ⟨hw, ho⟩ := h
      subst hw
      subst ho
      exact ⟨rfl, rfl, rfl⟩
    · exact Except.noConfusion h

theorem perPassWrites_spec (sizeCB : Nat) (l : List ConstantField) :
    ∀ (offset : Nat) (ws : List CBWrite),
      perPassWrites sizeCB offset l = Except.ok ws →
      ws.length = l.length ∧
      ∀ i, ∀ h : i < ws.length,
        (ws.get ⟨i, h⟩).offset = offset + matrixSize * i ∧
        (ws.get ⟨i, h⟩).size = matrixSize := by
  induction l with
  | nil =>
    intro offset ws h
    simp only [perPassWrites] at h
    cases h
    refine ⟨rfl, ?_⟩
    intro i hi
    exact absurd hi (by simp)
  | cons c rest ih =>
    intro offset ws h
    simp only [perPassWrites] at h
    split at h
    next e heq => exact Except.noConfusion h
    next w heq =>
      split at h
      next e2 heq2 => exact Except.noConfusion h
      next ws2 heq2 =>
        cases h
        obtain ⟨hlen, hrest⟩ := ih w.2 ws2 heq2
        obtain ⟨ho, hs, hoff2⟩ :=
          writePerPassConstant_ok sizeCB offset c w.1 w.2 (by rw [heq])
        refine ⟨by simp [hlen], ?_⟩
        intro i hi
        match i with
        | 0 => simpa using ⟨ho, hs⟩
        | Nat.succ n =>
          have hn : n < ws2.length := by
            simp only [List.length_cons] at hi
            omega
          have hsp := hrest n hn
          constructor
          · show (ws2.get ⟨n, hn⟩).offset = offset + matrixSize * (n + 1)
            rw [hsp.1, hoff2]
            ring
          · exact hsp.2

/-- C6: the per-pass constant buffer payload writes each declared field in
declared order at consecutive 64-byte offsets, and the payload size (also
the size recorded in the constant-buffer-view descriptor) is the declared
size padded up to the 256-byte minimum alignment; in particular a
definition with the single field View (64 bytes) resolved at PerPass
scope uploads exactly 256 bytes with the view matrix at offset 0 and a
view descriptor of size 256. -/
theorem c6_perPass_payload :
    resolvePerPassCBAttr [⟨3, 64, [⟨SourceKind.engineSource, DataElement.view⟩]⟩] 3 =
      Except.ok ⟨256, [⟨0, MatrixVal.viewOf, 64⟩]⟩ ∧
    ∀ cb ws sz, buildPerPassCBPayload cb = Except.ok (ws, sz) →
      sz = alignUp cb.size 256 ∧ ws.length = cb.constants.length ∧
      ∀ i, ∀ h : i < ws.length,
        (ws.get ⟨i, h⟩).offset = matrixSize * i ∧ (ws.get ⟨i, h⟩).size = matrixSize := by
  refine ⟨rfl, ?_⟩
  intro cb ws sz h
  simp only [buildPerPassCBPayload] at h
  split at h
  · exact Except.noConfusion h
  · split at h
    next e heq => exact Except.noConfusion h
    next ws2 heq =>
      simp only [Except.ok.injEq, Prod.mk.injEq] at h
      obtain ⟨hws, hsz⟩ := h
      subst hws
      subst hsz
      obtain ⟨hlen, hoffs⟩ := perPassWrites_spec (alignUp cb.size 256) cb.constants 0 _ heq
      refine ⟨rfl, hlen, ?_⟩
      intro i hi
      simpa using hoffs i hi

/-- Witness for C6 at the concrete single-View definition. -/
theorem c6_perPass_payload_witness :
    (256 : Nat) = alignUp 64 256 ∧
    ([⟨0, MatrixVal.viewOf, 64⟩] : List CBWrite).length =
      ([⟨SourceKind.engineSource, DataElement.view⟩] : List ConstantField).length ∧
    ∀ i, ∀ h : i < ([⟨0, MatrixVal.viewOf, 64⟩] : List CBWrite).length,
      (([⟨0, MatrixVal.viewOf, 64⟩] : List CBWrite).get ⟨i, h⟩).offset = matrixSize * i ∧
      (([⟨0, MatrixVal.viewOf, 64⟩] : List CBWrite).get ⟨i, h⟩).size = matrixSize :=
  c6_perPass_payload.2 ⟨3, 64, [⟨SourceKind.engineSource, DataElement.view⟩]⟩
    [⟨0, MatrixVal.viewOf, 64⟩] 256 rfl

theorem countP_psoDraws (a b c : Nat) : ∀ l : List Nat,
    ((l.flatMap (fun pso =>
        [Cmd.setPipelineState pso, Cmd.drawIndexedInstanced a b c])).countP isIndexedDraw) =
      l.length := by
  intro l
  induction l with
  | nil => rfl
  | cons x xs ih =>
    show (([Cmd.setPipelineState x, Cmd.drawIndexedInstanced a b c] ++
        xs.flatMap _).countP isIndexedDraw) = xs.length + 1
    rw [List.countP_append, ih]
    simp [List.countP_cons, isIndexedDraw, Nat.add_comm]

theorem materialLoopCmds_draw_count (mesh : Mesh) :
    ∀ (materials : List Material) (materialID : Nat),
      (∀ m ∈ materials, m.shaderSubpasses.length = 1) →
      ((materialLoopCmds mesh materials materialID).countP isIndexedDraw) =
        min materials.length (mesh.subMeshes.length - materialID) := by
  intro materials
  induction materials with
  | nil =>
    intro mid h
    simp [materialLoopCmds]
  | cons m rest ih =>
    intro mid h
    by_cases hle : mesh.subMeshes.length ≤ mid
    · simp only [materialLoopCmds, if_pos hle]
      simp
      omega
    · have hm : m.shaderSubpasses.length = 1 := h m (by simp)
      have hrest : ∀ x ∈ rest, x.shaderSubpasses.length = 1 :=
        fun x hx => h x (by simp [hx])
      simp only [materialLoopCmds, if_neg hle, List.countP_append, List.countP_cons]
      rw [countP_psoDraws, ih (mid + 1) hrest, hm]
      simp only [isIndexedDraw]
      simp
      omega

/-- C7: the object-batch material loop submits draws for materials in
index order only while the material index is below the mesh's submesh
count, stopping as soon as it is not, even if more materials remain; with
one shader subpass per material the number of indexed draws is the
minimum of the material count and the submesh count, and concretely a
renderer with 3 materials over a 2-submesh mesh records exactly 2 indexed
draws, one per submesh/material pair. -/
theorem c7_object_batch_draw_stop :
    (∀ (mesh : Mesh) (materials : List Material),
      (∀ m ∈ materials, m.shaderSubpasses.length = 1) →
      ((materialLoopCmds mesh materials 0).countP isIndexedDraw) =
        min materials.length mesh.subMeshes.length) ∧
    materialLoopCmds ⟨[⟨6, 0⟩, ⟨9, 6⟩], 0, 4, true⟩ [⟨[11]⟩, ⟨[12]⟩, ⟨[13]⟩] 0 =
      [Cmd.iaSetPrimitiveTopology 4, Cmd.iaSetVertexBuffers, Cmd.iaSetIndexBuffer true,
       Cmd.setPipelineState 11, Cmd.drawIndexedInstanced 6 1 0,
       Cmd.iaSetPrimitiveTopology 4, Cmd.iaSetVertexBuffers, Cmd.iaSetIndexBuffer true,
       Cmd.setPipelineState 12, Cmd.drawIndexedInstanced 9 1 6] := by
  refine ⟨?_, by decide⟩
  intro mesh materials h
  simpa using materialLoopCmds_draw_count mesh materials 0 h

/-- Witness for C7: 3 single-subpass materials against 2 submeshes give
min 3 2 = 2 indexed draws. -/
theorem c7_object_batch_draw_stop_witness :
    (materialLoopCmds ⟨[⟨6, 0⟩, ⟨9, 6⟩], 0, 4, true⟩
        [⟨[11]⟩, ⟨[12]⟩, ⟨[13]⟩] 0).countP isIndexedDraw = min 3 2 :=
  c7_object_batch_draw_stop.1 ⟨[⟨6, 0⟩, ⟨9, 6⟩], 0, 4, true⟩
    [⟨[11]⟩, ⟨[12]⟩, ⟨[13]⟩] (by decide)

/-- C8: output-attachment RTV resolution treats descriptor handles as
sentinels: handle 0 resolves to the RTV at the current back-buffer index,
a handle equal to the back-buffer count resolves to the paired alternate
view at backBufferIndex + backBufferCount, and every other handle
resolves to its own index. -/
theorem c8_rtv_sentinels :
    (∀ backBufferIndex backBufferCount : Nat,
      resolveOutputRTVHandle 0 backBufferIndex backBufferCount = backBufferIndex) ∧
    (∀ backBufferIndex backBufferCount : Nat,
      resolveOutputRTVHandle backBufferCount backBufferIndex backBufferCount =
        backBufferIndex + backBufferCount) ∧
    (∀ handle backBufferIndex backBufferCount : Nat,
      handle ≠ 0 → handle ≠ backBufferCount →
      resolveOutputRTVHandle handle backBufferIndex backBufferCount = handle) := by
  refine ⟨fun i c => rfl, ?_, ?_⟩
  · intro i c
    by_cases h : c = 0
    · subst h
      simp [resolveOutputRTVHandle]
    · simp [resolveOutputRTVHandle, h]
  · intro h i c h0 hc
    simp [resolveOutputRTVHandle, h0, hc]

/-- Witness for C8: an ordinary handle (7, distinct from 0 and from the
back-buffer count 3) resolves to itself. -/
theorem c8_rtv_sentinels_witness : resolveOutputRTVHandle 7 1 3 = 7 :=
  c8_rtv_sentinels.2.2 7 1 3 (by decide) (by decide)

/-- C9: in buildShaderData, with the compile flag false a pixel or vertex
stage first asserts that the destination program buffer is empty, so a
call on an already populated buffer is a fatal duplicate write, and
otherwise appends the generated text to the buffer; with the flag true
the generated text is compiled immediately. -/
theorem c9_shader_store_modes (buffer text : List Char) :
    storePixelShader true buffer text = Except.ok (StageStoreResult.compiled text) ∧
    storeVertexShader true buffer text = Except.ok (StageStoreResult.compiled text) ∧
    storePixelShader false [] text = Except.ok (StageStoreResult.stored text) ∧
    storeVertexShader false [] text = Except.ok (StageStoreResult.stored text) ∧
    (buffer ≠ [] →
      storePixelShader false buffer text = Except.error "Expects mPS empty failed") ∧
    (buffer ≠ [] →
      storeVertexShader false buffer text = Except.error "Expects mVS empty failed") := by
  refine ⟨rfl, rfl, rfl, rfl, ?_, ?_⟩
  · intro h
    simp [storePixelShader, h]
  · intro h
    simp [storeVertexShader, h]

/-- Witness for C9: deferring into an already populated buffer fails the
emptiness assertion. -/
theorem c9_shader_store_modes_witness :
    storePixelShader false [Char.ofNat 97] [] = Except.error "Expects mPS empty failed" ∧
    storeVertexShader false [Char.ofNat 97] [] = Except.error "Expects mVS empty failed" :=
  ⟨(c9_shader_store_modes [Char.ofNat 97] []).2.2.2.2.1 (by decide),
   (c9_shader_store_modes [Char.ofNat 97] []).2.2.2.2.2 (by decide)⟩

/-- C10: for every frame context, the first command renderFrame records,
before any pass, clear or draw, is the single transition barrier taking
the framebuffer at the context's back-buffer index from the Present state
to the RenderTarget state; the current back buffer being in the Present
state on entry is thus the implicit precondition. -/
theorem c10_renderFrame_first_command (ctx : FrameContext) :
    (renderFrameCmds ctx).head? =
      some (Cmd.resourceBarrierTransition (ctx.framebuffers.getD ctx.backBufferIndex 0)
        ResourceState.present ResourceState.renderTarget) := rfl

end StarEngine
